import Mathlib

/-!
Verification of the C FFI value-encoding and safety-guard layer of the
taffy layout engine bindings (`bindings/c/src/value.rs` and
`bindings/c/src/style.rs`).

The embedding models `f32` payloads as an inductive `F32` that keeps the
non-finite values (NaN, ±infinity) distinct from finite values, which are
carried as rationals.  The codecs in `value.rs` only ever copy payloads
verbatim or test `is_finite`/`> 0`, so this model is exact for them.

Raw style pointers are modelled as `Option Style`: `none` is the null
pointer, `some s` a pointer to a style record holding `s`.  A mutating
entry point returns the status code together with the (possibly updated)
pointed-to state.
-/

namespace CTaffy

/-- Model of an `f32` value: NaN, the two infinities, or a finite value
carried as a rational.  The FFI layer copies payloads verbatim and only
inspects finiteness and sign (aspect ratio), so this model is exact. -/
inductive F32 where
  | nan
  | inf
  | negInf
  | val (x : ℚ)
deriving DecidableEq

/-- Model of Rust `f32::is_finite`. -/
def F32.isFinite : F32 → Bool
  | .val _ => true
  | _ => false

/-- Model of the Rust comparison `value > 0.0` (false for NaN, true for
positive infinity). -/
def F32.gtZero : F32 → Bool
  | .val x => decide (0 < x)
  | .inf => true
  | _ => false

/-- `TaffyEdge` from `value.rs`: edge selector for batch setters. -/
inductive TaffyEdge where
  | top
  | bottom
  | left
  | right
  | vertical
  | horizontal
  | all
deriving DecidableEq

/-- `TaffyUnit` from `value.rs`: the wire tag of a dimension value. -/
inductive TaffyUnit where
  | none
  | length
  | percent
  | minContent
  | maxContent
  | fitContentPx
  | fitContentPercent
  | auto
  | fr
deriving DecidableEq

/-- The status codes returned by the boundary.  `ok` and the seven
`invalid*` codes appear in `value.rs`; `nullStylePointer` is the
handle-failure code.  Modelled from the spec: the full `TaffyReturnCode`
declaration lives in `bindings/c/src/error.rs`, which is not under `src/`;
the spec requires one success code, one generic null-handle code, and one
rejection code per rejected dimension variant. -/
inductive TaffyReturnCode where
  | ok
  | invalidNone
  | invalidAuto
  | invalidMinContent
  | invalidMaxContent
  | invalidFitContentPx
  | invalidFitContentPercent
  | invalidFr
  | nullStylePointer
deriving DecidableEq

/-- `TaffyDimension` from `value.rs`: the flat wire record for one
dimension value, `(value : f32, unit : TaffyUnit)`. -/
structure TaffyDimension where
  value : F32
  unit : TaffyUnit
deriving DecidableEq

/-- `TaffyFFIDefault for TaffyDimension` from `value.rs`:
`{ unit: None, value: 0.0 }`. -/
def TaffyDimension.default : TaffyDimension :=
  { value := .val 0, unit := .none }

/-- `TaffyDimension::from_raw` from `value.rs`. -/
def TaffyDimension.from_raw (unit : TaffyUnit) (value : F32) : TaffyDimension :=
  { unit := unit, value := value }

/-- Native `taffy::LengthPercentage` (the variants used by the codec in
`value.rs`). -/
inductive LengthPercentage where
  | length (v : F32)
  | percent (v : F32)
deriving DecidableEq

/-- Native `taffy::LengthPercentageAuto`. -/
inductive LengthPercentageAuto where
  | length (v : F32)
  | percent (v : F32)
  | auto
deriving DecidableEq

/-- Native `taffy::Dimension`. -/
inductive Dimension where
  | length (v : F32)
  | percent (v : F32)
  | auto
deriving DecidableEq

/-- `From<core::LengthPercentage> for TaffyDimension` from `value.rs`. -/
def TaffyDimension.ofLengthPercentage : LengthPercentage → TaffyDimension
  | .length v => { unit := .length, value := v }
  | .percent v => { unit := .percent, value := v }

/-- `TryFrom<TaffyDimension> for core::LengthPercentage` from `value.rs`. -/
def LengthPercentage.tryFromTaffy (d : TaffyDimension) :
    Except TaffyReturnCode LengthPercentage :=
  match d.unit with
  | .length => .ok (.length d.value)
  | .percent => .ok (.percent d.value)
  | .none => .error .invalidNone
  | .auto => .error .invalidAuto
  | .minContent => .error .invalidMinContent
  | .maxContent => .error .invalidMaxContent
  | .fitContentPx => .error .invalidFitContentPx
  | .fitContentPercent => .error .invalidFitContentPercent
  | .fr => .error .invalidFr

/-- `From<core::LengthPercentageAuto> for TaffyDimension` from `value.rs`. -/
def TaffyDimension.ofLengthPercentageAuto : LengthPercentageAuto → TaffyDimension
  | .length v => { unit := .length, value := v }
  | .percent v => { unit := .percent, value := v }
  | .auto => { unit := .auto, value := .val 0 }

/-- `TryFrom<TaffyDimension> for core::LengthPercentageAuto` from `value.rs`. -/
def LengthPercentageAuto.tryFromTaffy (d : TaffyDimension) :
    Except TaffyReturnCode LengthPercentageAuto :=
  match d.unit with
  | .auto => .ok .auto
  | .length => .ok (.length d.value)
  | .percent => .ok (.percent d.value)
  | .none => .error .invalidNone
  | .minContent => .error .invalidMinContent
  | .maxContent => .error .invalidMaxContent
  | .fitContentPx => .error .invalidFitContentPx
  | .fitContentPercent => .error .invalidFitContentPercent
  | .fr => .error .invalidFr

/-- `From<core::Dimension> for TaffyDimension` from `value.rs`. -/
def TaffyDimension.ofDimension : Dimension → TaffyDimension
  | .length v => { unit := .length, value := v }
  | .percent v => { unit := .percent, value := v }
  | .auto => { unit := .auto, value := .val 0 }

/-- `TryFrom<TaffyDimension> for core::Dimension` from `value.rs`. -/
def Dimension.tryFromTaffy (d : TaffyDimension) :
    Except TaffyReturnCode Dimension :=
  match d.unit with
  | .auto => .ok .auto
  | .length => .ok (.length d.value)
  | .percent => .ok (.percent d.value)
  | .none => .error .invalidNone
  | .minContent => .error .invalidMinContent
  | .maxContent => .error .invalidMaxContent
  | .fitContentPx => .error .invalidFitContentPx
  | .fitContentPercent => .error .invalidFitContentPercent
  | .fr => .error .invalidFr

/-- `TaffyGridPlacement` from `value.rs`: the wire record
`(start : i16, end : i16, span : u16)`; `0` in a field means unset.
The integer widths do not matter to any claim, so the fields are
modelled as unbounded integers (a superset of the i16/u16 ranges). -/
structure TaffyGridPlacement where
  start : Int
  end_ : Int
  span : Nat
deriving DecidableEq

/-- `TaffyFFIDefault for TaffyGridPlacement` from `value.rs`. -/
def TaffyGridPlacement.default : TaffyGridPlacement :=
  { start := 0, end_ := 0, span := 0 }

/-- Native `taffy::GridPlacement`: a grid line reference. -/
inductive GridPlacement where
  | auto
  | line (idx : Int)
  | span (n : Nat)
deriving DecidableEq

/-- Native `taffy::Line`: a `start`/`end` pair. -/
structure Line (α : Type) where
  start : α
  end_ : α
deriving DecidableEq

/-- Modelled from the spec: `Line::<GridPlacement>::from_raw_parts`, which
lives in the engine core and is not under `src/`.  Per the spec (§3, §4.2)
a `0` wire field means "unspecified", the native side keeps any two of
{start line, end line, span}, and every triple (including all-zero)
decodes without failure.  The argument order `(start, span, end)` is the
one used at the call site in `value.rs`. -/
def Line.from_raw_parts (start : Int) (span : Nat) (end_ : Int) :
    Line GridPlacement :=
  if start ≠ 0 then
    if end_ ≠ 0 then { start := .line start, end_ := .line end_ }
    else if span ≠ 0 then { start := .line start, end_ := .span span }
    else { start := .line start, end_ := .auto }
  else
    if end_ ≠ 0 then
      if span ≠ 0 then { start := .span span, end_ := .line end_ }
      else { start := .auto, end_ := .line end_ }
    else
      if span ≠ 0 then { start := .span span, end_ := .auto }
      else { start := .auto, end_ := .auto }

/-- Modelled from the spec: `Line::<GridPlacement>::into_raw_parts` (engine
core, not under `src/`): emits the specified fields and leaves derived or
unspecified fields at the `0` sentinel. -/
def Line.into_raw_parts : Line GridPlacement → Int × Nat × Int
  | { start := .line s, end_ := .line e } => (s, 0, e)
  | { start := .line s, end_ := .span n } => (s, n, 0)
  | { start := .line s, end_ := .auto } => (s, 0, 0)
  | { start := .span n, end_ := .line e } => (0, n, e)
  | { start := .span n, end_ := .span _ } => (0, n, 0)
  | { start := .span n, end_ := .auto } => (0, n, 0)
  | { start := .auto, end_ := .line e } => (0, 0, e)
  | { start := .auto, end_ := .span n } => (0, n, 0)
  | { start := .auto, end_ := .auto } => (0, 0, 0)

/-- `From<TaffyGridPlacement> for core::Line<core::GridPlacement>` from
`value.rs`: `Self::from_raw_parts(placement.start, placement.span,
placement.end)`. -/
def Line.ofTaffyGridPlacement (p : TaffyGridPlacement) : Line GridPlacement :=
  Line.from_raw_parts p.start p.span p.end_

/-- `From<core::Line<core::GridPlacement>> for TaffyGridPlacement` from
`value.rs`. -/
def TaffyGridPlacement.ofLine (l : Line GridPlacement) : TaffyGridPlacement :=
  match Line.into_raw_parts l with
  | (start, span, end_) => { start := start, span := span, end_ := end_ }

/-- A rectangle of per-edge values (`taffy::Rect`). -/
structure Rect (α : Type) where
  top : α
  bottom : α
  left : α
  right : α
deriving DecidableEq

/-- A width/height pair (`taffy::Size`). -/
structure Size (α : Type) where
  width : α
  height : α
deriving DecidableEq

/-- An x/y pair (`taffy::Point`), used for the overflow property. -/
structure Point (α : Type) where
  x : α
  y : α
deriving DecidableEq

/-- The fields of `core::Style` touched by the accessor surface in
`style.rs`.  Field types follow the conversions each setter invokes:
margins and insets decode through `LengthPercentageAuto`, padding, border
and gap through `LengthPercentage`, sizes and flex-basis through
`Dimension`.  Keyword-like enum properties (display, position, overflow,
flex direction, flex wrap, grid auto flow) and the optional
alignment/justification properties are carried as opaque integer codes:
their `From`/`Into` conversions live in `style_enums.rs`, which is not
under `src/`, and no claim depends on the concrete code assignment, so the
stored representation is the integer code itself. -/
structure Style where
  display : Int
  position : Int
  overflow : Point Int
  align_content : Option Int
  align_items : Option Int
  align_self : Option Int
  justify_content : Option Int
  justify_items : Option Int
  justify_self : Option Int
  flex_direction : Int
  flex_wrap : Int
  grid_auto_flow : Int
  size : Size Dimension
  min_size : Size Dimension
  max_size : Size Dimension
  inset : Rect LengthPercentageAuto
  margin : Rect LengthPercentageAuto
  padding : Rect LengthPercentage
  border : Rect LengthPercentage
  gap : Size LengthPercentage
  aspect_ratio : Option F32
  scrollbar_width : F32
  flex_basis : Dimension
  flex_grow : F32
  flex_shrink : F32
  grid_column : Line GridPlacement
  grid_row : Line GridPlacement
deriving DecidableEq

/-- A concrete style used as the test state for witnesses and
counterexamples. -/
def testStyle : Style where
  display := 0
  position := 0
  overflow := { x := 0, y := 0 }
  align_content := none
  align_items := none
  align_self := none
  justify_content := none
  justify_items := none
  justify_self := none
  flex_direction := 0
  flex_wrap := 0
  grid_auto_flow := 0
  size := { width := .auto, height := .auto }
  min_size := { width := .auto, height := .auto }
  max_size := { width := .auto, height := .auto }
  inset := { top := .auto, bottom := .auto, left := .auto, right := .auto }
  margin := { top := .length (.val 1), bottom := .length (.val 2),
              left := .length (.val 3), right := .length (.val 4) }
  padding := { top := .length (.val 0), bottom := .length (.val 0),
               left := .length (.val 0), right := .length (.val 0) }
  border := { top := .length (.val 0), bottom := .length (.val 0),
              left := .length (.val 0), right := .length (.val 0) }
  gap := { width := .length (.val 0), height := .length (.val 0) }
  aspect_ratio := none
  scrollbar_width := .val 0
  flex_basis := .auto
  flex_grow := .val 0
  flex_shrink := .val 1
  grid_column := { start := .auto, end_ := .auto }
  grid_row := { start := .auto, end_ := .auto }

/-- The `get_style!` macro from `style.rs`: guard, then read.  Modelled
from the spec for the null branch: the `debug_assert_non_null!` guard is
declared in `lib.rs`, which is not under `src/`; per the spec (§4.3) a
read-only call with a null handle returns the documented zero-value
default for its return type and performs no further action. -/
def get_style {α : Type} (raw_style : Option Style) (dflt : α)
    (read : Style → α) : α :=
  match raw_style with
  | none => dflt
  | some style => read style

/-- The `with_style_mut!` macro from `style.rs` for blocks that cannot
fail: guard, mutate, return `Ok`.  Modelled from the spec for the null
branch: on a null handle the call returns the handle-failure status and
performs no write. -/
def with_style_mut (raw_style : Option Style) (mutate : Style → Style) :
    TaffyReturnCode × Option Style :=
  match raw_style with
  | none => (.nullStylePointer, none)
  | some style => (.ok, some (mutate style))

/-- The `style_value_prop_setter!` macro from `style.rs`:
`with_style_mut!(raw_style, style, style.<prop> = try_from_raw!(unit, value))`.
The `try_from_raw!` early-return makes a decode failure return the error
code with no write. -/
def style_value_prop_setter {α : Type}
    (decode : TaffyDimension → Except TaffyReturnCode α)
    (assign : Style → α → Style) (raw_style : Option Style)
    (value : F32) (unit : TaffyUnit) : TaffyReturnCode × Option Style :=
  match raw_style with
  | none => (.nullStylePointer, none)
  | some style =>
    match decode (TaffyDimension.from_raw unit value) with
    | .error e => (e, some style)
    | .ok v => (.ok, some (assign style v))

/-- `TaffyStyle_GetDisplay` from `style.rs` (enum conversions are the
identity on the opaque integer code, see `Style`). -/
def TaffyStyle_GetDisplay (raw_style : Option Style) : Int :=
  get_style raw_style 0 (fun style => style.display)

/-- `TaffyStyle_SetDisplay` from `style.rs`. -/
def TaffyStyle_SetDisplay (raw_style : Option Style) (value : Int) :
    TaffyReturnCode × Option Style :=
  with_style_mut raw_style (fun style => { style with display := value })

/-- `TaffyStyle_GetPosition` from `style.rs`. -/
def TaffyStyle_GetPosition (raw_style : Option Style) : Int :=
  get_style raw_style 0 (fun style => style.position)

/-- `TaffyStyle_SetPosition` from `style.rs`. -/
def TaffyStyle_SetPosition (raw_style : Option Style) (value : Int) :
    TaffyReturnCode × Option Style :=
  with_style_mut raw_style (fun style => { style with position := value })

/-- `TaffyStyle_GetOverflowX` from `style.rs`. -/
def TaffyStyle_GetOverflowX (raw_style : Option Style) : Int :=
  get_style raw_style 0 (fun style => style.overflow.x)

/-- `TaffyStyle_SetOverflowX` from `style.rs`. -/
def TaffyStyle_SetOverflowX (raw_style : Option Style) (value : Int) :
    TaffyReturnCode × Option Style :=
  with_style_mut raw_style
    (fun style => { style with overflow := { style.overflow with x := value } })

/-- `TaffyStyle_GetOverflowY` from `style.rs`. -/
def TaffyStyle_GetOverflowY (raw_style : Option Style) : Int :=
  get_style raw_style 0 (fun style => style.overflow.y)

/-- `TaffyStyle_SetOverflowY` from `style.rs`. -/
def TaffyStyle_SetOverflowY (raw_style : Option Style) (value : Int) :
    TaffyReturnCode × Option Style :=
  with_style_mut raw_style
    (fun style => { style with overflow := { style.overflow with y := value } })

/-- `TaffyStyle_GetAlignContent` from `style.rs`:
`style.align_content.map(|v| v as i32).unwrap_or(0)`. -/
def TaffyStyle_GetAlignContent (raw_style : Option Style) : Int :=
  get_style raw_style 0
    (fun style => (style.align_content.map (fun v => v)).getD 0)

/-- `TaffyStyle_GetAlignItems` from `style.rs`. -/
def TaffyStyle_GetAlignItems (raw_style : Option Style) : Int :=
  get_style raw_style 0
    (fun style => (style.align_items.map (fun v => v)).getD 0)

/-- `TaffyStyle_GetAlignSelf` from `style.rs`. -/
def TaffyStyle_GetAlignSelf (raw_style : Option Style) : Int :=
  get_style raw_style 0
    (fun style => (style.align_self.map (fun v => v)).getD 0)

/-- `TaffyStyle_GetJustifyContent` from `style.rs`. -/
def TaffyStyle_GetJustifyContent (raw_style : Option Style) : Int :=
  get_style raw_style 0
    (fun style => (style.justify_content.map (fun v => v)).getD 0)

/-- `TaffyStyle_GetJustifyItems` from `style.rs`. -/
def TaffyStyle_GetJustifyItems (raw_style : Option Style) : Int :=
  get_style raw_style 0
    (fun style => (style.justify_items.map (fun v => v)).getD 0)

/-- `TaffyStyle_GetJustifySelf` from `style.rs`. -/
def TaffyStyle_GetJustifySelf (raw_style : Option Style) : Int :=
  get_style raw_style 0
    (fun style => (style.justify_self.map (fun v => v)).getD 0)

/-- `TaffyStyle_SetAlignContent` from `style.rs` (the
`TaffyAlignContent → Option<core enum>` conversion from the missing
`style_enums.rs` is carried as an `Option Int` argument). -/
def TaffyStyle_SetAlignContent (raw_style : Option Style) (value : Option Int) :
    TaffyReturnCode × Option Style :=
  with_style_mut raw_style (fun style => { style with align_content := value })

/-- `TaffyStyle_SetAlignItems` from `style.rs`. -/
def TaffyStyle_SetAlignItems (raw_style : Option Style) (value : Option Int) :
    TaffyReturnCode × Option Style :=
  with_style_mut raw_style (fun style => { style with align_items := value })

/-- `TaffyStyle_SetAlignSelf` from `style.rs`. -/
def TaffyStyle_SetAlignSelf (raw_style : Option Style) (value : Option Int) :
    TaffyReturnCode × Option Style :=
  with_style_mut raw_style (fun style => { style with align_self := value })

/-- `TaffyStyle_SetJustifyContent` from `style.rs`. -/
def TaffyStyle_SetJustifyContent (raw_style : Option Style) (value : Option Int) :
    TaffyReturnCode × Option Style :=
  with_style_mut raw_style (fun style => { style with justify_content := value })

/-- `TaffyStyle_SetJustifyItems` from `style.rs`. -/
def TaffyStyle_SetJustifyItems (raw_style : Option Style) (value : Option Int) :
    TaffyReturnCode × Option Style :=
  with_style_mut raw_style (fun style => { style with justify_items := value })

/-- `TaffyStyle_SetJustifySelf` from `style.rs`. -/
def TaffyStyle_SetJustifySelf (raw_style : Option Style) (value : Option Int) :
    TaffyReturnCode × Option Style :=
  with_style_mut raw_style (fun style => { style with justify_self := value })

/-- `TaffyStyle_GetFlexDirection` from `style.rs`. -/
def TaffyStyle_GetFlexDirection (raw_style : Option Style) : Int :=
  get_style raw_style 0 (fun style => style.flex_direction)

/-- `TaffyStyle_SetFlexDirection` from `style.rs`. -/
def TaffyStyle_SetFlexDirection (raw_style : Option Style) (value : Int) :
    TaffyReturnCode × Option Style :=
  with_style_mut raw_style (fun style => { style with flex_direction := value })

/-- `TaffyStyle_GetFlexWrap` from `style.rs`. -/
def TaffyStyle_GetFlexWrap (raw_style : Option Style) : Int :=
  get_style raw_style 0 (fun style => style.flex_wrap)

/-- `TaffyStyle_SetFlexWrap` from `style.rs`. -/
def TaffyStyle_SetFlexWrap (raw_style : Option Style) (value : Int) :
    TaffyReturnCode × Option Style :=
  with_style_mut raw_style (fun style => { style with flex_wrap := value })

/-- `TaffyStyle_GetGridAutoFlow` from `style.rs`. -/
def TaffyStyle_GetGridAutoFlow (raw_style : Option Style) : Int :=
  get_style raw_style 0 (fun style => style.grid_auto_flow)

/-- `TaffyStyle_SetGridAutoFlow` from `style.rs`. -/
def TaffyStyle_SetGridAutoFlow (raw_style : Option Style) (value : Int) :
    TaffyReturnCode × Option Style :=
  with_style_mut raw_style (fun style => { style with grid_auto_flow := value })

/-- `TaffyStyle_GetWidth` from `style.rs`. -/
def TaffyStyle_GetWidth (raw_style : Option Style) : TaffyDimension :=
  get_style raw_style TaffyDimension.default
    (fun style => TaffyDimension.ofDimension style.size.width)

/-- `TaffyStyle_SetWidth` from `style.rs`. -/
def TaffyStyle_SetWidth (raw_style : Option Style) (value : F32)
    (unit : TaffyUnit) : TaffyReturnCode × Option Style :=
  style_value_prop_setter Dimension.tryFromTaffy
    (fun style v => { style with size := { style.size with width := v } })
    raw_style value unit

/-- `TaffyStyle_GetHeight` from `style.rs`. -/
def TaffyStyle_GetHeight (raw_style : Option Style) : TaffyDimension :=
  get_style raw_style TaffyDimension.default
    (fun style => TaffyDimension.ofDimension style.size.height)

/-- `TaffyStyle_SetHeight` from `style.rs`. -/
def TaffyStyle_SetHeight (raw_style : Option Style) (value : F32)
    (unit : TaffyUnit) : TaffyReturnCode × Option Style :=
  style_value_prop_setter Dimension.tryFromTaffy
    (fun style v => { style with size := { style.size with height := v } })
    raw_style value unit

/-- `TaffyStyle_GetMinWidth` from `style.rs`. -/
def TaffyStyle_GetMinWidth (raw_style : Option Style) : TaffyDimension :=
  get_style raw_style TaffyDimension.default
    (fun style => TaffyDimension.ofDimension style.min_size.width)

/-- `TaffyStyle_SetMinWidth` from `style.rs`. -/
def TaffyStyle_SetMinWidth (raw_style : Option Style) (value : F32)
    (unit : TaffyUnit) : TaffyReturnCode × Option Style :=
  style_value_prop_setter Dimension.tryFromTaffy
    (fun style v => { style with min_size := { style.min_size with width := v } })
    raw_style value unit

/-- `TaffyStyle_GetMinHeight` from `style.rs`. -/
def TaffyStyle_GetMinHeight (raw_style : Option Style) : TaffyDimension :=
  get_style raw_style TaffyDimension.default
    (fun style => TaffyDimension.ofDimension style.min_size.height)

/-- `TaffyStyle_SetMinHeight` from `style.rs`. -/
def TaffyStyle_SetMinHeight (raw_style : Option Style) (value : F32)
    (unit : TaffyUnit) : TaffyReturnCode × Option Style :=
  style_value_prop_setter Dimension.tryFromTaffy
    (fun style v => { style with min_size := { style.min_size with height := v } })
    raw_style value unit

/-- `TaffyStyle_GetMaxWidth` from `style.rs`. -/
def TaffyStyle_GetMaxWidth (raw_style : Option Style) : TaffyDimension :=
  get_style raw_style TaffyDimension.default
    (fun style => TaffyDimension.ofDimension style.max_size.width)

/-- `TaffyStyle_SetMaxWidth` from `style.rs`. -/
def TaffyStyle_SetMaxWidth (raw_style : Option Style) (value : F32)
    (unit : TaffyUnit) : TaffyReturnCode × Option Style :=
  style_value_prop_setter Dimension.tryFromTaffy
    (fun style v => { style with max_size := { style.max_size with width := v } })
    raw_style value unit

/-- `TaffyStyle_GetMaxHeight` from `style.rs`. -/
def TaffyStyle_GetMaxHeight (raw_style : Option Style) : TaffyDimension :=
  get_style raw_style TaffyDimension.default
    (fun style => TaffyDimension.ofDimension style.max_size.height)

/-- `TaffyStyle_SetMaxHeight` from `style.rs`. -/
def TaffyStyle_SetMaxHeight (raw_style : Option Style) (value : F32)
    (unit : TaffyUnit) : TaffyReturnCode × Option Style :=
  style_value_prop_setter Dimension.tryFromTaffy
    (fun style v => { style with max_size := { style.max_size with height := v } })
    raw_style value unit

/-- `TaffyStyle_GetInsetTop` from `style.rs`. -/
def TaffyStyle_GetInsetTop (raw_style : Option Style) : TaffyDimension :=
  get_style raw_style TaffyDimension.default
    (fun style => TaffyDimension.ofLengthPercentageAuto style.inset.top)

/-- `TaffyStyle_SetInsetTop` from `style.rs`. -/
def TaffyStyle_SetInsetTop (raw_style : Option Style) (value : F32)
    (unit : TaffyUnit) : TaffyReturnCode × Option Style :=
  style_value_prop_setter LengthPercentageAuto.tryFromTaffy
    (fun style v => { style with inset := { style.inset with top := v } })
    raw_style value unit

/-- `TaffyStyle_GetInsetBottom` from `style.rs`. -/
def TaffyStyle_GetInsetBottom (raw_style : Option Style) : TaffyDimension :=
  get_style raw_style TaffyDimension.default
    (fun style => TaffyDimension.ofLengthPercentageAuto style.inset.bottom)

/-- `TaffyStyle_SetInsetBottom` from `style.rs`. -/
def TaffyStyle_SetInsetBottom (raw_style : Option Style) (value : F32)
    (unit : TaffyUnit) : TaffyReturnCode × Option Style :=
  style_value_prop_setter LengthPercentageAuto.tryFromTaffy
    (fun style v => { style with inset := { style.inset with bottom := v } })
    raw_style value unit

/-- `TaffyStyle_GetInsetLeft` from `style.rs`. -/
def TaffyStyle_GetInsetLeft (raw_style : Option Style) : TaffyDimension :=
  get_style raw_style TaffyDimension.default
    (fun style => TaffyDimension.ofLengthPercentageAuto style.inset.left)

/-- `TaffyStyle_GetInsetRight` from `style.rs`. -/
def TaffyStyle_GetInsetRight (raw_style : Option Style) : TaffyDimension :=
  get_style raw_style TaffyDimension.default
    (fun style => TaffyDimension.ofLengthPercentageAuto style.inset.right)

/-- `TaffyStyle_SetInsetLeft` from `style.rs`. -/
def TaffyStyle_SetInsetLeft (raw_style : Option Style) (value : F32)
    (unit : TaffyUnit) : TaffyReturnCode × Option Style :=
  style_value_prop_setter LengthPercentageAuto.tryFromTaffy
    (fun style v => { style with inset := { style.inset with left := v } })
    raw_style value unit

/-- `TaffyStyle_SetInsetRight` from `style.rs`. -/
def TaffyStyle_SetInsetRight (raw_style : Option Style) (value : F32)
    (unit : TaffyUnit) : TaffyReturnCode × Option Style :=
  style_value_prop_setter LengthPercentageAuto.tryFromTaffy
    (fun style v => { style with inset := { style.inset with right := v } })
    raw_style value unit

/-- `TaffyStyle_GetMarginTop` from `style.rs`. -/
def TaffyStyle_GetMarginTop (raw_style : Option Style) : TaffyDimension :=
  get_style raw_style TaffyDimension.default
    (fun style => TaffyDimension.ofLengthPercentageAuto style.margin.top)

/-- `TaffyStyle_SetMarginTop` from `style.rs`. -/
def TaffyStyle_SetMarginTop (raw_style : Option Style) (value : F32)
    (unit : TaffyUnit) : TaffyReturnCode × Option Style :=
  style_value_prop_setter LengthPercentageAuto.tryFromTaffy
    (fun style v => { style with margin := { style.margin with top := v } })
    raw_style value unit

/-- `TaffyStyle_GetMarginBottom` from `style.rs`. -/
def TaffyStyle_GetMarginBottom (raw_style : Option Style) : TaffyDimension :=
  get_style raw_style TaffyDimension.default
    (fun style => TaffyDimension.ofLengthPercentageAuto style.margin.bottom)

/-- `TaffyStyle_SetMarginBottom` from `style.rs`. -/
def TaffyStyle_SetMarginBottom (raw_style : Option Style) (value : F32)
    (unit : TaffyUnit) : TaffyReturnCode × Option Style :=
  style_value_prop_setter LengthPercentageAuto.tryFromTaffy
    (fun style v => { style with margin := { style.margin with bottom := v } })
    raw_style value unit

/-- `TaffyStyle_GetMarginLeft` from `style.rs`. -/
def TaffyStyle_GetMarginLeft (raw_style : Option Style) : TaffyDimension :=
  get_style raw_style TaffyDimension.default
    (fun style => TaffyDimension.ofLengthPercentageAuto style.margin.left)

/-- `TaffyStyle_GetMarginRight` from `style.rs`. -/
def TaffyStyle_GetMarginRight (raw_style : Option Style) : TaffyDimension :=
  get_style raw_style TaffyDimension.default
    (fun style => TaffyDimension.ofLengthPercentageAuto style.margin.right)

/-- `TaffyStyle_SetMarginLeft` from `style.rs`. -/
def TaffyStyle_SetMarginLeft (raw_style : Option Style) (value : F32)
    (unit : TaffyUnit) : TaffyReturnCode × Option Style :=
  style_value_prop_setter LengthPercentageAuto.tryFromTaffy
    (fun style v => { style with margin := { style.margin with left := v } })
    raw_style value unit

/-- `TaffyStyle_SetMarginRight` from `style.rs`. -/
def TaffyStyle_SetMarginRight (raw_style : Option Style) (value : F32)
    (unit : TaffyUnit) : TaffyReturnCode × Option Style :=
  style_value_prop_setter LengthPercentageAuto.tryFromTaffy
    (fun style v => { style with margin := { style.margin with right := v } })
    raw_style value unit

/-- `TaffyStyle_GetPaddingTop` from `style.rs`. -/
def TaffyStyle_GetPaddingTop (raw_style : Option Style) : TaffyDimension :=
  get_style raw_style TaffyDimension.default
    (fun style => TaffyDimension.ofLengthPercentage style.padding.top)

/-- `TaffyStyle_SetPaddingTop` from `style.rs`. -/
def TaffyStyle_SetPaddingTop (raw_style : Option Style) (value : F32)
    (unit : TaffyUnit) : TaffyReturnCode × Option Style :=
  style_value_prop_setter LengthPercentage.tryFromTaffy
    (fun style v => { style with padding := { style.padding with top := v } })
    raw_style value unit

/-- `TaffyStyle_GetPaddingBottom` from `style.rs`. -/
def TaffyStyle_GetPaddingBottom (raw_style : Option Style) : TaffyDimension :=
  get_style raw_style TaffyDimension.default
    (fun style => TaffyDimension.ofLengthPercentage style.padding.bottom)

/-- `TaffyStyle_SetPaddingBottom` from `style.rs`. -/
def TaffyStyle_SetPaddingBottom (raw_style : Option Style) (value : F32)
    (unit : TaffyUnit) : TaffyReturnCode × Option Style :=
  style_value_prop_setter LengthPercentage.tryFromTaffy
    (fun style v => { style with padding := { style.padding with bottom := v } })
    raw_style value unit

/-- `TaffyStyle_GetPaddingLeft` from `style.rs`. -/
def TaffyStyle_GetPaddingLeft (raw_style : Option Style) : TaffyDimension :=
  get_style raw_style TaffyDimension.default
    (fun style => TaffyDimension.ofLengthPercentage style.padding.left)

/-- `TaffyStyle_GetPaddingRight` from `style.rs`. -/
def TaffyStyle_GetPaddingRight (raw_style : Option Style) : TaffyDimension :=
  get_style raw_style TaffyDimension.default
    (fun style => TaffyDimension.ofLengthPercentage style.padding.right)

/-- `TaffyStyle_SetPaddingLeft` from `style.rs`. -/
def TaffyStyle_SetPaddingLeft (raw_style : Option Style) (value : F32)
    (unit : TaffyUnit) : TaffyReturnCode × Option Style :=
  style_value_prop_setter LengthPercentage.tryFromTaffy
    (fun style v => { style with padding := { style.padding with left := v } })
    raw_style value unit

/-- `TaffyStyle_SetPaddingRight` from `style.rs`. -/
def TaffyStyle_SetPaddingRight (raw_style : Option Style) (value : F32)
    (unit : TaffyUnit) : TaffyReturnCode × Option Style :=
  style_value_prop_setter LengthPercentage.tryFromTaffy
    (fun style v => { style with padding := { style.padding with right := v } })
    raw_style value unit

/-- `TaffyStyle_GetBorderTop` from `style.rs`. -/
def TaffyStyle_GetBorderTop (raw_style : Option Style) : TaffyDimension :=
  get_style raw_style TaffyDimension.default
    (fun style => TaffyDimension.ofLengthPercentage style.border.top)

/-- `TaffyStyle_SetBorderTop` from `style.rs`. -/
def TaffyStyle_SetBorderTop (raw_style : Option Style) (value : F32)
    (unit : TaffyUnit) : TaffyReturnCode × Option Style :=
  style_value_prop_setter LengthPercentage.tryFromTaffy
    (fun style v => { style with border := { style.border with top := v } })
    raw_style value unit

/-- `TaffyStyle_GetBorderBottom` from `style.rs`. -/
def TaffyStyle_GetBorderBottom (raw_style : Option Style) : TaffyDimension :=
  get_style raw_style TaffyDimension.default
    (fun style => TaffyDimension.ofLengthPercentage style.border.bottom)

/-- `TaffyStyle_SetBorderBottom` from `style.rs`. -/
def TaffyStyle_SetBorderBottom (raw_style : Option Style) (value : F32)
    (unit : TaffyUnit) : TaffyReturnCode × Option Style :=
  style_value_prop_setter LengthPercentage.tryFromTaffy
    (fun style v => { style with border := { style.border with bottom := v } })
    raw_style value unit

/-- `TaffyStyle_GetBorderLeft` from `style.rs`. -/
def TaffyStyle_GetBorderLeft (raw_style : Option Style) : TaffyDimension :=
  get_style raw_style TaffyDimension.default
    (fun style => TaffyDimension.ofLengthPercentage style.border.left)

/-- `TaffyStyle_GetBorderRight` from `style.rs`. -/
def TaffyStyle_GetBorderRight (raw_style : Option Style) : TaffyDimension :=
  get_style raw_style TaffyDimension.default
    (fun style => TaffyDimension.ofLengthPercentage style.border.right)

/-- `TaffyStyle_SetBorderLeft` from `style.rs`. -/
def TaffyStyle_SetBorderLeft (raw_style : Option Style) (value : F32)
    (unit : TaffyUnit) : TaffyReturnCode × Option Style :=
  style_value_prop_setter LengthPercentage.tryFromTaffy
    (fun style v => { style with border := { style.border with left := v } })
    raw_style value unit

/-- `TaffyStyle_SetBorderRight` from `style.rs`. -/
def TaffyStyle_SetBorderRight (raw_style : Option Style) (value : F32)
    (unit : TaffyUnit) : TaffyReturnCode × Option Style :=
  style_value_prop_setter LengthPercentage.tryFromTaffy
    (fun style v => { style with border := { style.border with right := v } })
    raw_style value unit

/-- `TaffyStyle_GetColumnGap` from `style.rs`. -/
def TaffyStyle_GetColumnGap (raw_style : Option Style) : TaffyDimension :=
  get_style raw_style TaffyDimension.default
    (fun style => TaffyDimension.ofLengthPercentage style.gap.width)

/-- `TaffyStyle_SetColumnGap` from `style.rs`. -/
def TaffyStyle_SetColumnGap (raw_style : Option Style) (value : F32)
    (unit : TaffyUnit) : TaffyReturnCode × Option Style :=
  style_value_prop_setter LengthPercentage.tryFromTaffy
    (fun style v => { style with gap := { style.gap with width := v } })
    raw_style value unit

/-- `TaffyStyle_GetRowGap` from `style.rs`. -/
def TaffyStyle_GetRowGap (raw_style : Option Style) : TaffyDimension :=
  get_style raw_style TaffyDimension.default
    (fun style => TaffyDimension.ofLengthPercentage style.gap.height)

/-- `TaffyStyle_SetRowGap` from `style.rs`. -/
def TaffyStyle_SetRowGap (raw_style : Option Style) (value : F32)
    (unit : TaffyUnit) : TaffyReturnCode × Option Style :=
  style_value_prop_setter LengthPercentage.tryFromTaffy
    (fun style v => { style with gap := { style.gap with height := v } })
    raw_style value unit

/-- `TaffyStyle_GetAspectRatio` from `style.rs`:
`style.aspect_ratio.unwrap_or(f32::NAN)`. -/
def TaffyStyle_GetAspectRatio (raw_style : Option Style) : F32 :=
  get_style raw_style (.val 0) (fun style => style.aspect_ratio.getD .nan)

/-- `TaffyStyle_SetAspectRatio` from `style.rs`: stores `Some(value)` when
`value.is_finite() && value > 0.0`, otherwise stores `None`; always Ok. -/
def TaffyStyle_SetAspectRatio (raw_style : Option Style) (value : F32) :
    TaffyReturnCode × Option Style :=
  with_style_mut raw_style (fun style =>
    if value.isFinite && value.gtZero then
      { style with aspect_ratio := some value }
    else
      { style with aspect_ratio := none })

/-- `TaffyStyle_GetScrollbarWidth` from `style.rs`. -/
def TaffyStyle_GetScrollbarWidth (raw_style : Option Style) : F32 :=
  get_style raw_style (.val 0) (fun style => style.scrollbar_width)

/-- `TaffyStyle_SetScrollbarWidth` from `style.rs`. -/
def TaffyStyle_SetScrollbarWidth (raw_style : Option Style) (value : F32) :
    TaffyReturnCode × Option Style :=
  with_style_mut raw_style (fun style => { style with scrollbar_width := value })

/-- `TaffyStyle_GetFlexBasis` from `style.rs`. -/
def TaffyStyle_GetFlexBasis (raw_style : Option Style) : TaffyDimension :=
  get_style raw_style TaffyDimension.default
    (fun style => TaffyDimension.ofDimension style.flex_basis)

/-- `TaffyStyle_SetFlexBasis` from `style.rs`. -/
def TaffyStyle_SetFlexBasis (raw_style : Option Style) (value : F32)
    (unit : TaffyUnit) : TaffyReturnCode × Option Style :=
  style_value_prop_setter Dimension.tryFromTaffy
    (fun style v => { style with flex_basis := v })
    raw_style value unit

/-- `TaffyStyle_GetFlexGrow` from `style.rs`. -/
def TaffyStyle_GetFlexGrow (raw_style : Option Style) : F32 :=
  get_style raw_style (.val 0) (fun style => style.flex_grow)

/-- `TaffyStyle_SetFlexGrow` from `style.rs`. -/
def TaffyStyle_SetFlexGrow (raw_style : Option Style) (value : F32) :
    TaffyReturnCode × Option Style :=
  with_style_mut raw_style (fun style => { style with flex_grow := value })

/-- `TaffyStyle_GetFlexShrink` from `style.rs`. -/
def TaffyStyle_GetFlexShrink (raw_style : Option Style) : F32 :=
  get_style raw_style (.val 0) (fun style => style.flex_shrink)

/-- `TaffyStyle_SetFlexShrink` from `style.rs`. -/
def TaffyStyle_SetFlexShrink (raw_style : Option Style) (value : F32) :
    TaffyReturnCode × Option Style :=
  with_style_mut raw_style (fun style => { style with flex_shrink := value })

/-- The edge dispatch inside `TaffyStyle_SetMargin` from `style.rs`. -/
def apply_margin_edge (style : Style) (edge : TaffyEdge)
    (value : LengthPercentageAuto) : Style :=
  match edge with
  | .top => { style with margin := { style.margin with top := value } }
  | .bottom => { style with margin := { style.margin with bottom := value } }
  | .left => { style with margin := { style.margin with left := value } }
  | .right => { style with margin := { style.margin with right := value } }
  | .vertical =>
    { style with margin := { style.margin with top := value, bottom := value } }
  | .horizontal =>
    { style with margin := { style.margin with left := value, right := value } }
  | .all =>
    { style with margin :=
      { top := value, bottom := value, left := value, right := value } }

/-- `TaffyStyle_SetMargin` from `style.rs`.  Note the order taken from the
source: `try_from_value!(value)` runs before `with_style_mut!`, so the
wire value is decoded (and a decode failure returned) before the null
check on the handle. -/
def TaffyStyle_SetMargin (raw_style : Option Style) (edge : TaffyEdge)
    (value : TaffyDimension) : TaffyReturnCode × Option Style :=
  match LengthPercentageAuto.tryFromTaffy value with
  | .error e => (e, raw_style)
  | .ok v => with_style_mut raw_style (fun style => apply_margin_edge style edge v)

/-- `TaffyStyle_GetGridColumn` from `style.rs`. -/
def TaffyStyle_GetGridColumn (raw_style : Option Style) : TaffyGridPlacement :=
  get_style raw_style TaffyGridPlacement.default
    (fun style => TaffyGridPlacement.ofLine style.grid_column)

/-- `TaffyStyle_SetGridColumn` from `style.rs`. -/
def TaffyStyle_SetGridColumn (raw_style : Option Style)
    (placement : TaffyGridPlacement) : TaffyReturnCode × Option Style :=
  with_style_mut raw_style
    (fun style => { style with grid_column := Line.ofTaffyGridPlacement placement })

/-- `TaffyStyle_GetGridRow` from `style.rs`. -/
def TaffyStyle_GetGridRow (raw_style : Option Style) : TaffyGridPlacement :=
  get_style raw_style TaffyGridPlacement.default
    (fun style => TaffyGridPlacement.ofLine style.grid_row)

/-- `TaffyStyle_SetGridRow` from `style.rs`. -/
def TaffyStyle_SetGridRow (raw_style : Option Style)
    (placement : TaffyGridPlacement) : TaffyReturnCode × Option Style :=
  with_style_mut raw_style
    (fun style => { style with grid_row := Line.ofTaffyGridPlacement placement })

/-- C3: for every native dimension variant reachable at a given property
class (`LengthPercentage`, `LengthPercentageAuto`, `Dimension`), decoding
the wire record produced by encoding it yields exactly that variant:
`decode(encode(v)) = v`. -/
theorem dimension_codec_roundtrip :
    (∀ v : LengthPercentage,
      LengthPercentage.tryFromTaffy (TaffyDimension.ofLengthPercentage v) = .ok v) ∧
    (∀ v : LengthPercentageAuto,
      LengthPercentageAuto.tryFromTaffy (TaffyDimension.ofLengthPercentageAuto v) = .ok v) ∧
    (∀ v : Dimension,
      Dimension.tryFromTaffy (TaffyDimension.ofDimension v) = .ok v) := by
  refine ⟨fun v => ?_, fun v => ?_, fun v => ?_⟩ <;> cases v <;> rfl

/-- C8: encoding the native `Auto` variant always fixes the wire payload
to `0`, and for the payload-free wire tags `Auto` and `None` decoding is
independent of the payload, in each of the three accepting sets. -/
theorem payload_free_tag_behaviour :
    TaffyDimension.ofLengthPercentageAuto .auto = { value := .val 0, unit := .auto } ∧
    TaffyDimension.ofDimension .auto = { value := .val 0, unit := .auto } ∧
    (∀ x y : F32,
      LengthPercentageAuto.tryFromTaffy { value := x, unit := .auto } =
        LengthPercentageAuto.tryFromTaffy { value := y, unit := .auto } ∧
      LengthPercentageAuto.tryFromTaffy { value := x, unit := .none } =
        LengthPercentageAuto.tryFromTaffy { value := y, unit := .none } ∧
      Dimension.tryFromTaffy { value := x, unit := .auto } =
        Dimension.tryFromTaffy { value := y, unit := .auto } ∧
      Dimension.tryFromTaffy { value := x, unit := .none } =
        Dimension.tryFromTaffy { value := y, unit := .none } ∧
      LengthPercentage.tryFromTaffy { value := x, unit := .auto } =
        LengthPercentage.tryFromTaffy { value := y, unit := .auto } ∧
      LengthPercentage.tryFromTaffy { value := x, unit := .none } =
        LengthPercentage.tryFromTaffy { value := y, unit := .none }) :=
  ⟨rfl, rfl, fun _ _ => ⟨rfl, rfl, rfl, rfl, rfl, rfl⟩⟩

/-- C9: each optional-enum getter with a non-null handle returns `0` when
the underlying property is unset and the stored integer code when it is
set; consequently the unset state is indistinguishable from a set value
whose integer encoding is `0`. -/
theorem option_enum_getter_zero_default :
    ∀ (s : Style) (v : Int),
      TaffyStyle_GetAlignContent (some { s with align_content := none }) = 0 ∧
      TaffyStyle_GetAlignContent (some { s with align_content := some v }) = v ∧
      TaffyStyle_GetAlignItems (some { s with align_items := none }) = 0 ∧
      TaffyStyle_GetAlignItems (some { s with align_items := some v }) = v ∧
      TaffyStyle_GetAlignSelf (some { s with align_self := none }) = 0 ∧
      TaffyStyle_GetAlignSelf (some { s with align_self := some v }) = v ∧
      TaffyStyle_GetJustifyContent (some { s with justify_content := none }) = 0 ∧
      TaffyStyle_GetJustifyContent (some { s with justify_content := some v }) = v ∧
      TaffyStyle_GetJustifyItems (some { s with justify_items := none }) = 0 ∧
      TaffyStyle_GetJustifyItems (some { s with justify_items := some v }) = v ∧
      TaffyStyle_GetJustifySelf (some { s with justify_self := none }) = 0 ∧
      TaffyStyle_GetJustifySelf (some { s with justify_self := some v }) = v ∧
      TaffyStyle_GetAlignContent (some { s with align_content := some 0 }) =
        TaffyStyle_GetAlignContent (some { s with align_content := none }) ∧
      TaffyStyle_GetJustifySelf (some { s with justify_self := some 0 }) =
        TaffyStyle_GetJustifySelf (some { s with justify_self := none }) :=
  fun _ _ =>
    ⟨rfl, rfl, rfl, rfl, rfl, rfl, rfl, rfl, rfl, rfl, rfl, rfl, rfl, rfl⟩

/-- C2 counterexample: `TaffyStyle_SetWidth` with tag `Length` and payload
NaN returns `Ok` (not an error status) and stores the NaN payload into
`size.width`, changing it from its prior value `Auto`. -/
theorem nonfinite_payload_accepted_counterexample :
    (TaffyStyle_SetWidth (some testStyle) F32.nan .length).1 = .ok ∧
    (TaffyStyle_SetWidth (some testStyle) F32.nan .length).2.map
      (fun t => t.size.width) = some (.length .nan) ∧
    testStyle.size.width = Dimension.auto :=
  ⟨rfl, rfl, rfl⟩

/-- C2 amended: a dimension setter given a numeric-bearing tag (`Length`
or `Percent`) stores the payload verbatim and returns `Ok`, for every
payload including the non-finite ones; no finiteness check is performed. -/
theorem numeric_tag_payload_stored_verbatim :
    ∀ (s : Style) (x : F32),
      TaffyStyle_SetWidth (some s) x .length =
        (.ok, some { s with size := { s.size with width := .length x } }) ∧
      TaffyStyle_SetWidth (some s) x .percent =
        (.ok, some { s with size := { s.size with width := .percent x } }) ∧
      TaffyStyle_SetMarginTop (some s) x .length =
        (.ok, some { s with margin := { s.margin with top := .length x } }) ∧
      TaffyStyle_SetMarginTop (some s) x .percent =
        (.ok, some { s with margin := { s.margin with top := .percent x } }) ∧
      TaffyStyle_SetPaddingTop (some s) x .length =
        (.ok, some { s with padding := { s.padding with top := .length x } }) ∧
      TaffyStyle_SetPaddingTop (some s) x .percent =
        (.ok, some { s with padding := { s.padding with top := .percent x } }) :=
  fun _ _ => ⟨rfl, rfl, rfl, rfl, rfl, rfl⟩

/-- C4: a dimension setter with a non-null handle given a wire tag outside
the property's accepting set returns the status code naming that tag and
leaves the style state (hence the target property) exactly as it was, for
each rejected tag of a `Dimension` property (`SetWidth`), a
`LengthPercentageAuto` property (`SetMarginTop`), and a `LengthPercentage`
property (`SetPaddingTop`, which additionally rejects `Auto`). -/
theorem invalid_tag_rejected_without_write :
    ∀ (s : Style) (x : F32),
      TaffyStyle_SetWidth (some s) x .none = (.invalidNone, some s) ∧
      TaffyStyle_SetWidth (some s) x .minContent = (.invalidMinContent, some s) ∧
      TaffyStyle_SetWidth (some s) x .maxContent = (.invalidMaxContent, some s) ∧
      TaffyStyle_SetWidth (some s) x .fitContentPx = (.invalidFitContentPx, some s) ∧
      TaffyStyle_SetWidth (some s) x .fitContentPercent = (.invalidFitContentPercent, some s) ∧
      TaffyStyle_SetWidth (some s) x .fr = (.invalidFr, some s) ∧
      TaffyStyle_SetMarginTop (some s) x .none = (.invalidNone, some s) ∧
      TaffyStyle_SetMarginTop (some s) x .minContent = (.invalidMinContent, some s) ∧
      TaffyStyle_SetMarginTop (some s) x .maxContent = (.invalidMaxContent, some s) ∧
      TaffyStyle_SetMarginTop (some s) x .fitContentPx = (.invalidFitContentPx, some s) ∧
      TaffyStyle_SetMarginTop (some s) x .fitContentPercent = (.invalidFitContentPercent, some s) ∧
      TaffyStyle_SetMarginTop (some s) x .fr = (.invalidFr, some s) ∧
      TaffyStyle_SetPaddingTop (some s) x .none = (.invalidNone, some s) ∧
      TaffyStyle_SetPaddingTop (some s) x .auto = (.invalidAuto, some s) ∧
      TaffyStyle_SetPaddingTop (some s) x .minContent = (.invalidMinContent, some s) ∧
      TaffyStyle_SetPaddingTop (some s) x .maxContent = (.invalidMaxContent, some s) ∧
      TaffyStyle_SetPaddingTop (some s) x .fitContentPx = (.invalidFitContentPx, some s) ∧
      TaffyStyle_SetPaddingTop (some s) x .fitContentPercent = (.invalidFitContentPercent, some s) ∧
      TaffyStyle_SetPaddingTop (some s) x .fr = (.invalidFr, some s) :=
  fun _ _ =>
    ⟨rfl, rfl, rfl, rfl, rfl, rfl, rfl, rfl, rfl, rfl, rfl, rfl, rfl, rfl,
     rfl, rfl, rfl, rfl, rfl⟩

/-- C5: `TaffyStyle_SetMargin` with a non-null handle is atomic over the
selected edges: with an accepted tag the `All` selector sets all four
margin fields to the same decoded value (`Vertical` and `Horizontal` their
two edges) and returns `Ok`; with a rejected tag it returns the code
naming the tag and the whole style state is unchanged. -/
theorem margin_batch_setter_atomic :
    ∀ (s : Style) (x : F32),
      TaffyStyle_SetMargin (some s) .all { value := x, unit := .length } =
        (.ok, some { s with margin :=
          { top := .length x, bottom := .length x,
            left := .length x, right := .length x } }) ∧
      TaffyStyle_SetMargin (some s) .all { value := x, unit := .percent } =
        (.ok, some { s with margin :=
          { top := .percent x, bottom := .percent x,
            left := .percent x, right := .percent x } }) ∧
      TaffyStyle_SetMargin (some s) .all { value := x, unit := .auto } =
        (.ok, some { s with margin :=
          { top := .auto, bottom := .auto, left := .auto, right := .auto } }) ∧
      TaffyStyle_SetMargin (some s) .vertical { value := x, unit := .length } =
        (.ok, some { s with margin :=
          { s.margin with top := .length x, bottom := .length x } }) ∧
      TaffyStyle_SetMargin (some s) .horizontal { value := x, unit := .length } =
        (.ok, some { s with margin :=
          { s.margin with left := .length x, right := .length x } }) ∧
      TaffyStyle_SetMargin (some s) .all { value := x, unit := .none } =
        (.invalidNone, some s) ∧
      TaffyStyle_SetMargin (some s) .all { value := x, unit := .minContent } =
        (.invalidMinContent, some s) ∧
      TaffyStyle_SetMargin (some s) .all { value := x, unit := .maxContent } =
        (.invalidMaxContent, some s) ∧
      TaffyStyle_SetMargin (some s) .all { value := x, unit := .fitContentPx } =
        (.invalidFitContentPx, some s) ∧
      TaffyStyle_SetMargin (some s) .all { value := x, unit := .fitContentPercent } =
        (.invalidFitContentPercent, some s) ∧
      TaffyStyle_SetMargin (some s) .all { value := x, unit := .fr } =
        (.invalidFr, some s) ∧
      TaffyStyle_SetMargin (some s) .vertical { value := x, unit := .fr } =
        (.invalidFr, some s) ∧
      TaffyStyle_SetMargin (some s) .horizontal { value := x, unit := .fr } =
        (.invalidFr, some s) :=
  fun _ _ =>
    ⟨rfl, rfl, rfl, rfl, rfl, rfl, rfl, rfl, rfl, rfl, rfl, rfl, rfl⟩

/-- C6 counterexample: on a style whose stored aspect ratio is the set
value NaN, `TaffyStyle_GetAspectRatio` returns NaN even though the
property is not unset, so "returns NaN exactly when aspect ratio is
unset" fails as stated. -/
theorem aspect_ratio_nan_getter_counterexample :
    TaffyStyle_GetAspectRatio
      (some { testStyle with aspect_ratio := some F32.nan }) = F32.nan ∧
    ({ testStyle with aspect_ratio := some F32.nan } : Style).aspect_ratio ≠ none :=
  ⟨rfl, by decide⟩

/-- C6 amended: `TaffyStyle_SetAspectRatio` with a non-null handle never
fails: a payload that is finite and positive is stored, every other
payload (NaN, ±infinity, zero, negative) resets the property to unset,
and in both cases the success code is returned; `TaffyStyle_GetAspectRatio`
returns NaN exactly when the property is unset, provided the stored value
is not itself NaN (which the setter guarantees, since it never stores a
non-finite value). -/
theorem aspect_ratio_sentinel_policy :
    (∀ (s : Style) (v : F32), (TaffyStyle_SetAspectRatio (some s) v).1 = .ok) ∧
    (∀ (s : Style) (v : F32), (v.isFinite && v.gtZero) = true →
      (TaffyStyle_SetAspectRatio (some s) v).2 =
        some { s with aspect_ratio := some v }) ∧
    (∀ (s : Style) (v : F32), (v.isFinite && v.gtZero) = false →
      (TaffyStyle_SetAspectRatio (some s) v).2 =
        some { s with aspect_ratio := none }) ∧
    (∀ s : Style, s.aspect_ratio ≠ some F32.nan →
      (TaffyStyle_GetAspectRatio (some s) = F32.nan ↔ s.aspect_ratio = none)) := by
  refine ⟨fun s v => rfl, fun s v h => ?_, fun s v h => ?_, fun s h => ?_⟩
  · simp [TaffyStyle_SetAspectRatio, with_style_mut, h]
  · simp [TaffyStyle_SetAspectRatio, with_style_mut, h]
  · cases har : s.aspect_ratio with
    | none => simp [TaffyStyle_GetAspectRatio, get_style, har]
    | some x =>
      simp only [TaffyStyle_GetAspectRatio, get_style, har, Option.getD_some]
      constructor
      · intro hx
        exact absurd (har.trans (congrArg some hx)) h
      · intro hx
        exact absurd hx (by simp)

/-- C6 witness: the amended theorem applied at a finite positive payload,
at NaN, and at the test style (whose aspect ratio is unset). -/
theorem aspect_ratio_sentinel_policy_witness :
    (TaffyStyle_SetAspectRatio (some testStyle) (F32.val 2)).2 =
      some { testStyle with aspect_ratio := some (F32.val 2) } ∧
    (TaffyStyle_SetAspectRatio (some testStyle) F32.nan).2 =
      some { testStyle with aspect_ratio := none } ∧
    (TaffyStyle_GetAspectRatio (some testStyle) = F32.nan ↔
      testStyle.aspect_ratio = none) :=
  ⟨aspect_ratio_sentinel_policy.2.1 testStyle (F32.val 2) (by decide),
   aspect_ratio_sentinel_policy.2.2.1 testStyle F32.nan (by decide),
   aspect_ratio_sentinel_policy.2.2.2 testStyle (by decide)⟩

/-- C7: the grid placement codec is total in both directions (both are
plain functions, with the all-zero triple decoding to the fully automatic
placement), and re-encoding the decoded placement yields a wire triple
that decodes to the very same placement: the derived/zeroed third field
agrees with the engine's own start/end/span derivation. -/
theorem grid_placement_codec_roundtrip :
    Line.from_raw_parts 0 0 0 = { start := .auto, end_ := .auto } ∧
    (∀ t : TaffyGridPlacement,
      Line.ofTaffyGridPlacement
        (TaffyGridPlacement.ofLine (Line.ofTaffyGridPlacement t)) =
      Line.ofTaffyGridPlacement t) := by
  refine ⟨rfl, fun t => ?_⟩
  obtain ⟨s, e, sp⟩ := t
  by_cases hs : s = 0 <;> by_cases he : e = 0 <;> by_cases hsp : sp = 0 <;>
    simp [Line.ofTaffyGridPlacement, TaffyGridPlacement.ofLine,
      Line.from_raw_parts, Line.into_raw_parts, hs, he, hsp]

/-- C10: a successful single-property setter touches only its targeted
field: after `TaffyStyle_SetMarginTop` only `margin.top` differs and every
other field of the style record (the three other margin edges and all
non-margin fields) projects to its prior value; after `TaffyStyle_SetMargin`
with the `Vertical` selector only `margin.top` and `margin.bottom` differ,
with `margin.left`, `margin.right` and all non-margin fields unchanged. -/
theorem setter_frame_condition :
    ∀ (s : Style) (x : F32),
      (TaffyStyle_SetMarginTop (some s) x .length).2.map (fun t => t.margin.top) =
        some (.length x) ∧
      (TaffyStyle_SetMarginTop (some s) x .length).2.map (fun t => t.margin.bottom) =
        some s.margin.bottom ∧
      (TaffyStyle_SetMarginTop (some s) x .length).2.map (fun t => t.margin.left) =
        some s.margin.left ∧
      (TaffyStyle_SetMarginTop (some s) x .length).2.map (fun t => t.margin.right) =
        some s.margin.right ∧
      (TaffyStyle_SetMarginTop (some s) x .length).2.map (fun t => t.display) =
        some s.display ∧
      (TaffyStyle_SetMarginTop (some s) x .length).2.map (fun t => t.position) =
        some s.position ∧
      (TaffyStyle_SetMarginTop (some s) x .length).2.map (fun t => t.overflow) =
        some s.overflow ∧
      (TaffyStyle_SetMarginTop (some s) x .length).2.map (fun t => t.align_content) =
        some s.align_content ∧
      (TaffyStyle_SetMarginTop (some s) x .length).2.map (fun t => t.align_items) =
        some s.align_items ∧
      (TaffyStyle_SetMarginTop (some s) x .length).2.map (fun t => t.align_self) =
        some s.align_self ∧
      (TaffyStyle_SetMarginTop (some s) x .length).2.map (fun t => t.justify_content) =
        some s.justify_content ∧
      (TaffyStyle_SetMarginTop (some s) x .length).2.map (fun t => t.justify_items) =
        some s.justify_items ∧
      (TaffyStyle_SetMarginTop (some s) x .length).2.map (fun t => t.justify_self) =
        some s.justify_self ∧
      (TaffyStyle_SetMarginTop (some s) x .length).2.map (fun t => t.flex_direction) =
        some s.flex_direction ∧
      (TaffyStyle_SetMarginTop (some s) x .length).2.map (fun t => t.flex_wrap) =
        some s.flex_wrap ∧
      (TaffyStyle_SetMarginTop (some s) x .length).2.map (fun t => t.grid_auto_flow) =
        some s.grid_auto_flow ∧
      (TaffyStyle_SetMarginTop (some s) x .length).2.map (fun t => t.size) =
        some s.size ∧
      (TaffyStyle_SetMarginTop (some s) x .length).2.map (fun t => t.min_size) =
        some s.min_size ∧
      (TaffyStyle_SetMarginTop (some s) x .length).2.map (fun t => t.max_size) =
        some s.max_size ∧
      (TaffyStyle_SetMarginTop (some s) x .length).2.map (fun t => t.inset) =
        some s.inset ∧
      (TaffyStyle_SetMarginTop (some s) x .length).2.map (fun t => t.padding) =
        some s.padding ∧
      (TaffyStyle_SetMarginTop (some s) x .length).2.map (fun t => t.border) =
        some s.border ∧
      (TaffyStyle_SetMarginTop (some s) x .length).2.map (fun t => t.gap) =
        some s.gap ∧
      (TaffyStyle_SetMarginTop (some s) x .length).2.map (fun t => t.aspect_ratio) =
        some s.aspect_ratio ∧
      (TaffyStyle_SetMarginTop (some s) x .length).2.map (fun t => t.scrollbar_width) =
        some s.scrollbar_width ∧
      (TaffyStyle_SetMarginTop (some s) x .length).2.map (fun t => t.flex_basis) =
        some s.flex_basis ∧
      (TaffyStyle_SetMarginTop (some s) x .length).2.map (fun t => t.flex_grow) =
        some s.flex_grow ∧
      (TaffyStyle_SetMarginTop (some s) x .length).2.map (fun t => t.flex_shrink) =
        some s.flex_shrink ∧
      (TaffyStyle_SetMarginTop (some s) x .length).2.map (fun t => t.grid_column) =
        some s.grid_column ∧
      (TaffyStyle_SetMarginTop (some s) x .length).2.map (fun t => t.grid_row) =
        some s.grid_row ∧
      (TaffyStyle_SetMargin (some s) .vertical { value := x, unit := .length }).2.map
        (fun t => t.margin.top) = some (.length x) ∧
      (TaffyStyle_SetMargin (some s) .vertical { value := x, unit := .length }).2.map
        (fun t => t.margin.bottom) = some (.length x) ∧
      (TaffyStyle_SetMargin (some s) .vertical { value := x, unit := .length }).2.map
        (fun t => t.margin.left) = some s.margin.left ∧
      (TaffyStyle_SetMargin (some s) .vertical { value := x, unit := .length }).2.map
        (fun t => t.margin.right) = some s.margin.right ∧
      (TaffyStyle_SetMargin (some s) .vertical { value := x, unit := .length }).2.map
        (fun t => t.display) = some s.display ∧
      (TaffyStyle_SetMargin (some s) .vertical { value := x, unit := .length }).2.map
        (fun t => t.position) = some s.position ∧
      (TaffyStyle_SetMargin (some s) .vertical { value := x, unit := .length }).2.map
        (fun t => t.overflow) = some s.overflow ∧
      (TaffyStyle_SetMargin (some s) .vertical { value := x, unit := .length }).2.map
        (fun t => t.align_content) = some s.align_content ∧
      (TaffyStyle_SetMargin (some s) .vertical { value := x, unit := .length }).2.map
        (fun t => t.align_items) = some s.align_items ∧
      (TaffyStyle_SetMargin (some s) .vertical { value := x, unit := .length }).2.map
        (fun t => t.align_self) = some s.align_self ∧
      (TaffyStyle_SetMargin (some s) .vertical { value := x, unit := .length }).2.map
        (fun t => t.justify_content) = some s.justify_content ∧
      (TaffyStyle_SetMargin (some s) .vertical { value := x, unit := .length }).2.map
        (fun t => t.justify_items) = some s.justify_items ∧
      (TaffyStyle_SetMargin (some s) .vertical { value := x, unit := .length }).2.map
        (fun t => t.justify_self) = some s.justify_self ∧
      (TaffyStyle_SetMargin (some s) .vertical { value := x, unit := .length }).2.map
        (fun t => t.flex_direction) = some s.flex_direction ∧
      (TaffyStyle_SetMargin (some s) .vertical { value := x, unit := .length }).2.map
        (fun t => t.flex_wrap) = some s.flex_wrap ∧
      (TaffyStyle_SetMargin (some s) .vertical { value := x, unit := .length }).2.map
        (fun t => t.grid_auto_flow) = some s.grid_auto_flow ∧
      (TaffyStyle_SetMargin (some s) .vertical { value := x, unit := .length }).2.map
        (fun t => t.size) = some s.size ∧
      (TaffyStyle_SetMargin (some s) .vertical { value := x, unit := .length }).2.map
        (fun t => t.min_size) = some s.min_size ∧
      (TaffyStyle_SetMargin (some s) .vertical { value := x, unit := .length }).2.map
        (fun t => t.max_size) = some s.max_size ∧
      (TaffyStyle_SetMargin (some s) .vertical { value := x, unit := .length }).2.map
        (fun t => t.inset) = some s.inset ∧
      (TaffyStyle_SetMargin (some s) .vertical { value := x, unit := .length }).2.map
        (fun t => t.padding) = some s.padding ∧
      (TaffyStyle_SetMargin (some s) .vertical { value := x, unit := .length }).2.map
        (fun t => t.border) = some s.border ∧
      (TaffyStyle_SetMargin (some s) .vertical { value := x, unit := .length }).2.map
        (fun t => t.gap) = some s.gap ∧
      (TaffyStyle_SetMargin (some s) .vertical { value := x, unit := .length }).2.map
        (fun t => t.aspect_ratio) = some s.aspect_ratio ∧
      (TaffyStyle_SetMargin (some s) .vertical { value := x, unit := .length }).2.map
        (fun t => t.scrollbar_width) = some s.scrollbar_width ∧
      (TaffyStyle_SetMargin (some s) .vertical { value := x, unit := .length }).2.map
        (fun t => t.flex_basis) = some s.flex_basis ∧
      (TaffyStyle_SetMargin (some s) .vertical { value := x, unit := .length }).2.map
        (fun t => t.flex_grow) = some s.flex_grow ∧
      (TaffyStyle_SetMargin (some s) .vertical { value := x, unit := .length }).2.map
        (fun t => t.flex_shrink) = some s.flex_shrink ∧
      (TaffyStyle_SetMargin (some s) .vertical { value := x, unit := .length }).2.map
        (fun t => t.grid_column) = some s.grid_column ∧
      (TaffyStyle_SetMargin (some s) .vertical { value := x, unit := .length }).2.map
        (fun t => t.grid_row) = some s.grid_row :=
  fun _ _ =>
    ⟨rfl, rfl, rfl, rfl, rfl, rfl, rfl, rfl, rfl, rfl, rfl, rfl, rfl, rfl, rfl,
     rfl, rfl, rfl, rfl, rfl, rfl, rfl, rfl, rfl, rfl, rfl, rfl, rfl, rfl, rfl,
     rfl, rfl, rfl, rfl, rfl, rfl, rfl, rfl, rfl, rfl, rfl, rfl, rfl, rfl, rfl,
     rfl, rfl, rfl, rfl, rfl, rfl, rfl, rfl, rfl, rfl, rfl, rfl, rfl, rfl, rfl⟩

/-- C1 counterexample: `TaffyStyle_SetMargin` decodes its wire value
before checking the handle, so called with a null handle and an `Fr`
value it returns `InvalidFr`, not the handle-failure status code. -/
theorem null_handle_setmargin_counterexample :
    TaffyStyle_SetMargin none .all { value := .val 0, unit := .fr } =
      (.invalidFr, none) ∧
    TaffyReturnCode.invalidFr ≠ TaffyReturnCode.nullStylePointer :=
  ⟨rfl, by decide⟩

/-- C1 amended: every exported entry point called with a null style handle
performs no write and returns its documented failure default — the
handle-failure status for mutating calls and the zero-value default for
read-only calls — with the one exception of `TaffyStyle_SetMargin`, which
decodes its wire argument first and therefore returns the decode-failure
status (still without writing) when that decoding fails, and the
handle-failure status otherwise. -/
theorem null_handle_default_and_no_write :
    TaffyStyle_GetDisplay none = 0 ∧
    TaffyStyle_GetPosition none = 0 ∧
    TaffyStyle_GetOverflowX none = 0 ∧
    TaffyStyle_GetOverflowY none = 0 ∧
    TaffyStyle_GetAlignContent none = 0 ∧
    TaffyStyle_GetAlignItems none = 0 ∧
    TaffyStyle_GetAlignSelf none = 0 ∧
    TaffyStyle_GetJustifyContent none = 0 ∧
    TaffyStyle_GetJustifyItems none = 0 ∧
    TaffyStyle_GetJustifySelf none = 0 ∧
    TaffyStyle_GetFlexDirection none = 0 ∧
    TaffyStyle_GetFlexWrap none = 0 ∧
    TaffyStyle_GetGridAutoFlow none = 0 ∧
    TaffyStyle_GetWidth none = TaffyDimension.default ∧
    TaffyStyle_GetHeight none = TaffyDimension.default ∧
    TaffyStyle_GetMinWidth none = TaffyDimension.default ∧
    TaffyStyle_GetMinHeight none = TaffyDimension.default ∧
    TaffyStyle_GetMaxWidth none = TaffyDimension.default ∧
    TaffyStyle_GetMaxHeight none = TaffyDimension.default ∧
    TaffyStyle_GetInsetTop none = TaffyDimension.default ∧
    TaffyStyle_GetInsetBottom none = TaffyDimension.default ∧
    TaffyStyle_GetInsetLeft none = TaffyDimension.default ∧
    TaffyStyle_GetInsetRight none = TaffyDimension.default ∧
    TaffyStyle_GetMarginTop none = TaffyDimension.default ∧
    TaffyStyle_GetMarginBottom none = TaffyDimension.default ∧
    TaffyStyle_GetMarginLeft none = TaffyDimension.default ∧
    TaffyStyle_GetMarginRight none = TaffyDimension.default ∧
    TaffyStyle_GetPaddingTop none = TaffyDimension.default ∧
    TaffyStyle_GetPaddingBottom none = TaffyDimension.default ∧
    TaffyStyle_GetPaddingLeft none = TaffyDimension.default ∧
    TaffyStyle_GetPaddingRight none = TaffyDimension.default ∧
    TaffyStyle_GetBorderTop none = TaffyDimension.default ∧
    TaffyStyle_GetBorderBottom none = TaffyDimension.default ∧
    TaffyStyle_GetBorderLeft none = TaffyDimension.default ∧
    TaffyStyle_GetBorderRight none = TaffyDimension.default ∧
    TaffyStyle_GetColumnGap none = TaffyDimension.default ∧
    TaffyStyle_GetRowGap none = TaffyDimension.default ∧
    TaffyStyle_GetFlexBasis none = TaffyDimension.default ∧
    TaffyStyle_GetAspectRatio none = .val 0 ∧
    TaffyStyle_GetScrollbarWidth none = .val 0 ∧
    TaffyStyle_GetFlexGrow none = .val 0 ∧
    TaffyStyle_GetFlexShrink none = .val 0 ∧
    TaffyStyle_GetGridColumn none = TaffyGridPlacement.default ∧
    TaffyStyle_GetGridRow none = TaffyGridPlacement.default ∧
    (∀ v : Int, TaffyStyle_SetDisplay none v = (.nullStylePointer, none)) ∧
    (∀ v : Int, TaffyStyle_SetPosition none v = (.nullStylePointer, none)) ∧
    (∀ v : Int, TaffyStyle_SetOverflowX none v = (.nullStylePointer, none)) ∧
    (∀ v : Int, TaffyStyle_SetOverflowY none v = (.nullStylePointer, none)) ∧
    (∀ v : Option Int, TaffyStyle_SetAlignContent none v = (.nullStylePointer, none)) ∧
    (∀ v : Option Int, TaffyStyle_SetAlignItems none v = (.nullStylePointer, none)) ∧
    (∀ v : Option Int, TaffyStyle_SetAlignSelf none v = (.nullStylePointer, none)) ∧
    (∀ v : Option Int, TaffyStyle_SetJustifyContent none v = (.nullStylePointer, none)) ∧
    (∀ v : Option Int, TaffyStyle_SetJustifyItems none v = (.nullStylePointer, none)) ∧
    (∀ v : Option Int, TaffyStyle_SetJustifySelf none v = (.nullStylePointer, none)) ∧
    (∀ v : Int, TaffyStyle_SetFlexDirection none v = (.nullStylePointer, none)) ∧
    (∀ v : Int, TaffyStyle_SetFlexWrap none v = (.nullStylePointer, none)) ∧
    (∀ v : Int, TaffyStyle_SetGridAutoFlow none v = (.nullStylePointer, none)) ∧
    (∀ (x : F32) (u : TaffyUnit),
      TaffyStyle_SetWidth none x u = (.nullStylePointer, none) ∧
      TaffyStyle_SetHeight none x u = (.nullStylePointer, none) ∧
      TaffyStyle_SetMinWidth none x u = (.nullStylePointer, none) ∧
      TaffyStyle_SetMinHeight none x u = (.nullStylePointer, none) ∧
      TaffyStyle_SetMaxWidth none x u = (.nullStylePointer, none) ∧
      TaffyStyle_SetMaxHeight none x u = (.nullStylePointer, none) ∧
      TaffyStyle_SetInsetTop none x u = (.nullStylePointer, none) ∧
      TaffyStyle_SetInsetBottom none x u = (.nullStylePointer, none) ∧
      TaffyStyle_SetInsetLeft none x u = (.nullStylePointer, none) ∧
      TaffyStyle_SetInsetRight none x u = (.nullStylePointer, none) ∧
      TaffyStyle_SetMarginTop none x u = (.nullStylePointer, none) ∧
      TaffyStyle_SetMarginBottom none x u = (.nullStylePointer, none) ∧
      TaffyStyle_SetMarginLeft none x u = (.nullStylePointer, none) ∧
      TaffyStyle_SetMarginRight none x u = (.nullStylePointer, none) ∧
      TaffyStyle_SetPaddingTop none x u = (.nullStylePointer, none) ∧
      TaffyStyle_SetPaddingBottom none x u = (.nullStylePointer, none) ∧
      TaffyStyle_SetPaddingLeft none x u = (.nullStylePointer, none) ∧
      TaffyStyle_SetPaddingRight none x u = (.nullStylePointer, none) ∧
      TaffyStyle_SetBorderTop none x u = (.nullStylePointer, none) ∧
      TaffyStyle_SetBorderBottom none x u = (.nullStylePointer, none) ∧
      TaffyStyle_SetBorderLeft none x u = (.nullStylePointer, none) ∧
      TaffyStyle_SetBorderRight none x u = (.nullStylePointer, none) ∧
      TaffyStyle_SetColumnGap none x u = (.nullStylePointer, none) ∧
      TaffyStyle_SetRowGap none x u = (.nullStylePointer, none) ∧
      TaffyStyle_SetFlexBasis none x u = (.nullStylePointer, none)) ∧
    (∀ v : F32, TaffyStyle_SetAspectRatio none v = (.nullStylePointer, none)) ∧
    (∀ v : F32, TaffyStyle_SetScrollbarWidth none v = (.nullStylePointer, none)) ∧
    (∀ v : F32, TaffyStyle_SetFlexGrow none v = (.nullStylePointer, none)) ∧
    (∀ v : F32, TaffyStyle_SetFlexShrink none v = (.nullStylePointer, none)) ∧
    (∀ p : TaffyGridPlacement,
      TaffyStyle_SetGridColumn none p = (.nullStylePointer, none) ∧
      TaffyStyle_SetGridRow none p = (.nullStylePointer, none)) ∧
    (∀ (e : TaffyEdge) (v : TaffyDimension),
      TaffyStyle_SetMargin none e v =
        (match LengthPercentageAuto.tryFromTaffy v with
         | .error c => c
         | .ok _ => .nullStylePointer, none)) := by
  refine ⟨rfl, rfl, rfl, rfl, rfl, rfl, rfl, rfl, rfl, rfl, rfl, rfl, rfl,
    rfl, rfl, rfl, rfl, rfl, rfl, rfl, rfl, rfl, rfl, rfl, rfl, rfl, rfl,
    rfl, rfl, rfl, rfl, rfl, rfl, rfl, rfl, rfl, rfl, rfl, rfl, rfl, rfl,
    rfl, rfl, rfl,
    fun _ => rfl, fun _ => rfl, fun _ => rfl, fun _ => rfl, fun _ => rfl,
    fun _ => rfl, fun _ => rfl, fun _ => rfl, fun _ => rfl, fun _ => rfl,
    fun _ => rfl, fun _ => rfl, fun _ => rfl,
    fun _ _ => ⟨rfl, rfl, rfl, rfl, rfl, rfl, rfl, rfl, rfl, rfl, rfl, rfl,
      rfl, rfl, rfl, rfl, rfl, rfl, rfl, rfl, rfl, rfl, rfl, rfl, rfl⟩,
    fun _ => rfl, fun _ => rfl, fun _ => rfl, fun _ => rfl,
    fun _ => ⟨rfl, rfl⟩, fun e v => ?_⟩
  cases h : LengthPercentageAuto.tryFromTaffy v <;>
    simp [TaffyStyle_SetMargin, with_style_mut, h]

end CTaffy
